import Mathlib

/-!
Verification of the collaboration / access-control core of the travel-diary
backend (`src/python-backend/working_complete_handler.py`, with the
`get_role_permissions` duplicate in `src/python-backend/lambda_function.py`).

The Python handlers are shallowly embedded: DynamoDB tables become Lean lists
(`List Trip`, `List User`, `List Session`), ISO-8601 timestamps become `Nat`
instants compared with `<`, generated UUID tokens become explicit parameters,
and the SHA-256 password hash becomes an explicit `hash : String → String`
parameter (the spec treats hashing as an external primitive).  Each handler is
a pure function from its inputs and the store to an HTTP-result record plus
the updated store.
-/

namespace TravelDiary

/-- The permission dict produced by `get_role_permissions`: four capability
flags (`view_trip`, `edit_itinerary`, `invite_others`, `manage_settings`). -/
structure Permissions where
  view_trip : Bool
  edit_itinerary : Bool
  invite_others : Bool
  manage_settings : Bool
deriving DecidableEq, Repr

/-- `get_role_permissions` (working_complete_handler.py lines 72-94; the copy
in lambda_function.py lines 316-338 is textually identical): static role
table, with `permissions.get(role, permissions['viewer'])` as the fallback. -/
def get_role_permissions (role : String) : Permissions :=
  if role = "viewer" then ⟨true, false, false, false⟩
  else if role = "editor" then ⟨true, true, false, false⟩
  else if role = "admin" then ⟨true, true, true, true⟩
  else ⟨true, false, false, false⟩

/-- `permissions.get(required_permission, False)`: lookup of a capability name
in the permission dict, `False` for unknown capability names. -/
def Permissions.lookup (p : Permissions) (cap : String) : Bool :=
  if cap = "view_trip" then p.view_trip
  else if cap = "edit_itinerary" then p.edit_itinerary
  else if cap = "invite_others" then p.invite_others
  else if cap = "manage_settings" then p.manage_settings
  else false

/-- `is_valid_role` (lines 68-70). -/
def is_valid_role (role : String) : Bool :=
  role = "viewer" || role = "editor" || role = "admin"

/-- One entry of a collaborator's `responses` history
(`handle_respond_to_invite`, lines 1528-1533). -/
structure ResponseRecord where
  action : String
  responded_at : Nat
  user_agent : String
  ip_address : String
deriving DecidableEq, Repr

/-- A collaborator dict embedded in a trip (see `handle_invite_collaborator`
lines 1367-1377 and `handle_accept_invitation` lines 2497-2508).  Fields that
the code adds only on some paths are `Option`s / default-empty lists. -/
structure Collaborator where
  user_id : String
  email : String
  name : String
  role : String
  invited_by : String
  invited_at : Nat
  status : String
  invite_token : String
  permissions : Permissions
  responses : List ResponseRecord := []
  last_response : Option String := none
  last_responded_at : Option Nat := none
  accepted_at : Option Nat := none
deriving DecidableEq, Repr

/-- An invitation dict embedded in a trip (invite-link flow). -/
structure Invitation where
  id : String
  token : String
  trip_id : String
  inviter_id : String
  role : String
  created_at : Nat
  expires_at : Nat
  status : String
  allow_signup : Bool
  used_at : Option Nat := none
  used_by : Option String := none
deriving DecidableEq, Repr

/-- Share-link `settings` dict (`handle_create_share_link` lines 1671-1676);
`password` holds the stored password hash ('' when not protected). -/
structure ShareSettings where
  is_public : Bool
  allow_comments : Bool
  password_protected : Bool
  password : String
deriving DecidableEq, Repr

/-- A share-link dict embedded in a trip (lines 1666-1681). -/
structure ShareLink where
  id : String
  trip_id : String
  token : String
  created_by : String
  settings : ShareSettings
  access_count : Nat
  created_at : Nat
  updated_at : Nat
  expires_at : Nat
  last_accessed : Option Nat := none
deriving DecidableEq, Repr

/-- A trip record.  `user_id` is the owning user (the code's owner check is
`trip.get('user_id') == user_id`).  Itinerary and wishlist entries are passed
through opaquely by the share path, so they are plain strings here. -/
structure Trip where
  id : String
  user_id : String
  title : String
  description : String
  destination : String
  start_date : String
  end_date : String
  duration : Nat
  itinerary : List String
  wishlist : List String
  collaborators : List Collaborator
  invitations : List Invitation
  share_links : List ShareLink
  updated_at : Nat
deriving DecidableEq, Repr

/-- A session record (sessions table). -/
structure Session where
  id : String
  user_id : String
  expires_at : Nat
  created_at : Nat
deriving DecidableEq, Repr

/-- A user record (users table). -/
structure User where
  id : String
  name : String
  email : String
  password_hash : String
deriving DecidableEq, Repr

/-- `can_user_access_trip` (working_complete_handler.py lines 96-110): owner
short-circuits to `True`; otherwise the first collaborator entry with matching
`user_id` and `status == 'accepted'` decides via the role table; else `False`.
Entries matching the user with a non-accepted status are skipped by the loop. -/
def can_user_access_trip (trip : Trip) (user_id : String)
    (required_permission : String) : Bool :=
  if trip.user_id == user_id then true
  else
    match trip.collaborators.find?
        (fun c => c.user_id == user_id && c.status == "accepted") with
    | some c => (get_role_permissions c.role).lookup required_permission
    | none => false

/-- Python `str.strip()` (no arguments): drop whitespace at both ends.
Implemented on the character list so it evaluates by kernel reduction. -/
def pyTrim (s : String) : String :=
  ⟨((s.data.dropWhile Char.isWhitespace).reverse.dropWhile Char.isWhitespace).reverse⟩

/-- Python `str.lower()` on the character list. -/
def pyToLower (s : String) : String := ⟨s.data.map Char.toLower⟩

/-- Python `str.startswith(pre)`. -/
def pyStartsWith (pre s : String) : Bool := pre.data.isPrefixOf s.data

/-- Left-to-right removal of every non-overlapping occurrence of `pat`
(Python `s.replace(pat, '')` for non-empty `pat`).  The fuel argument is the
input length: every step consumes at least one character. -/
def removeAllAux (pat : List Char) : Nat → List Char → List Char
  | _, [] => []
  | 0, l => l
  | fuel + 1, c :: rest =>
    if pat.isPrefixOf (c :: rest) then
      removeAllAux pat fuel ((c :: rest).drop pat.length)
    else c :: removeAllAux pat fuel rest

/-- Python `s.replace(pat, '')`. -/
def pyRemoveAll (pat s : String) : String :=
  ⟨removeAllAux pat.data s.data.length s.data⟩

/-- Python `str.split(sep)` for a single-character separator (the code only
splits on `'@'` and `'.'`); `acc` is the current chunk, reversed. -/
def splitOnCharAux (sep : Char) : List Char → List Char → List (List Char)
  | [], acc => [acc.reverse]
  | c :: rest, acc =>
    if c = sep then acc.reverse :: splitOnCharAux sep rest []
    else splitOnCharAux sep rest (c :: acc)

/-- Python `str.split(sep)` (single-character separator). -/
def pySplitOnChar (sep : Char) (s : String) : List String :=
  (splitOnCharAux sep s.data []).map String.mk

/-- Python `sep in str` membership test. -/
def pyContains (s : String) (c : Char) : Bool := s.data.any (fun x => x == c)

/-- Every character of the string satisfies `p`. -/
def pyAll (s : String) (p : Char → Bool) : Bool := s.data.all p

/-- `'.'.join(parts)`: rebuild the text between `'@'`-free chunks. -/
def joinDots (parts : List String) : String :=
  match parts with
  | [] => ""
  | p :: rest => rest.foldl (fun acc q => acc ++ "." ++ q) p

/-- Character class `[a-zA-Z0-9._%+-]` of the `is_valid_email` regex. -/
def isLocalChar (c : Char) : Bool :=
  c.isAlphanum || c = '.' || c = '_' || c = '%' || c = '+' || c = '-'

/-- Character class `[a-zA-Z0-9.-]` of the `is_valid_email` regex. -/
def isDomainChar (c : Char) : Bool :=
  c.isAlphanum || c = '.' || c = '-'

/-- `is_valid_email` (lines 47-50): recognizer for the anchored regex
`^[a-zA-Z0-9._%+-]+@[a-zA-Z0-9.-]+\.[a-zA-Z]{2,}$`.  Both character classes
exclude `@`, so a match forces exactly one `@`; the `[a-zA-Z]{2,}` tail
contains no dot, so its match is exactly the text after the last dot of the
domain part. -/
def is_valid_email (email : String) : Bool :=
  match pySplitOnChar '@' email with
  | [loc, domain] =>
    loc ≠ "" && pyAll loc isLocalChar &&
    (match (pySplitOnChar '.' domain).reverse with
     | tld :: revInit =>
       decide (2 ≤ tld.data.length) && pyAll tld Char.isAlpha &&
       (let pre := joinDots revInit.reverse
        pre ≠ "" && pyAll pre isDomainChar)
     | [] => false)
  | _ => false

/-- The weaker email check of `handle_register_with_invite` (line 2185):
`'@' in email and '.' in email.split('@')[1]`. -/
def registerEmailOk (email : String) : Bool :=
  pyContains email '@' &&
  (match pySplitOnChar '@' email with
   | _ :: d :: _ => pyContains d '.'
   | _ => false)

/-- `hash_password` is SHA-256 hex (lines 52-54); the handlers below take the
hash function as a parameter, treating it as the external primitive the spec
declares it to be. -/
def sessionTokenOf (auth : String) : String := pyRemoveAll "Bearer " auth

/-- The session-to-user resolution shared by the authenticated handlers
(e.g. `handle_invite_collaborator` lines 1234-1273, `handle_accept_invitation`
lines 2383-2413): require a `Bearer ` Authorization header, look the session
token up in the sessions table, then fetch the user record.  Any failure is a
401 in the handlers, modelled as `none` here.  Note these paths do not check
the session's `expires_at`. -/
def resolveSessionUser (sessions : List Session) (users : List User)
    (auth : Option String) : Option (String × User) :=
  match auth with
  | none => none
  | some a =>
    if pyStartsWith "Bearer " a then
      match sessions.find? (fun s => s.id == sessionTokenOf a) with
      | none => none
      | some s =>
        match users.find? (fun u => u.id == s.user_id) with
        | none => none
        | some u => some (s.user_id, u)
    else none

/-- The scan-for-first-match pattern used by every token lookup: walk the
trips table in order and return the first trip for which the extractor finds
a matching embedded record, together with that record. -/
def scanStore {α : Type} (f : Trip → Option α) : List Trip → Option (Trip × α)
  | [] => none
  | t :: rest =>
    match f t with
    | some a => some (t, a)
    | none => scanStore f rest

/-- The `for i, x in enumerate(xs): if p(x): xs[i] = f(x); break` pattern
used by the handlers to mutate the first matching embedded record in place. -/
def updateFirst {α : Type} (p : α → Bool) (f : α → α) : List α → List α
  | [] => []
  | x :: rest => if p x then f x :: rest else x :: updateFirst p f rest

/-- Token lookup over embedded invitations (lines 2195-2208 / 2442-2455). -/
def findInvitation (store : List Trip) (tok : String) : Option (Trip × Invitation) :=
  scanStore (fun t => t.invitations.find? (fun i => i.token == tok)) store

/-- Token lookup over embedded share links (lines 1765-1778). -/
def findShare (store : List Trip) (tok : String) : Option (Trip × ShareLink) :=
  scanStore (fun t => t.share_links.find? (fun l => l.token == tok)) store

/-- Token lookup over embedded direct-invite collaborators (lines 1479-1492). -/
def findInviteCollab (store : List Trip) (tok : String) : Option (Trip × Collaborator) :=
  scanStore (fun t => t.collaborators.find? (fun c => c.invite_token == tok)) store

/-- `trips_table.update_item(Key={'id': id}, ...)`: replace the record(s)
with the given key, leaving every other trip untouched. -/
def updateTripIn (store : List Trip) (id : String) (g : Trip → Trip) : List Trip :=
  store.map (fun tr => if tr.id = id then g tr else tr)

/-- `put_item` into the users table: overwrite by key, else append. -/
def putUser (users : List User) (u : User) : List User :=
  if users.any (fun x => x.id == u.id) then
    users.map (fun x => if x.id = u.id then u else x)
  else users ++ [u]

/-- `put_item` into the sessions table: overwrite by key, else append. -/
def putSession (sessions : List Session) (s : Session) : List Session :=
  if sessions.any (fun x => x.id == s.id) then
    sessions.map (fun x => if x.id = s.id then s else x)
  else sessions ++ [s]

/-- The per-trip rewrite of `handle_invite_collaborator`'s success path
(lines 1379-1390): append the new pending collaborator. -/
def inviteTripUpdate (trip : Trip) (newC : Collaborator) (now : Nat)
    (tr : Trip) : Trip :=
  { tr with collaborators := trip.collaborators ++ [newC], updated_at := now }

/-- The per-trip invariant of claim C2: collaborator emails are pairwise
distinct. -/
def emailsNodup (t : Trip) : Prop :=
  (t.collaborators.map (fun c => c.email)).Nodup

instance (t : Trip) : Decidable (emailsNodup t) := by
  unfold emailsNodup
  infer_instance

/-- HTTP-result skeleton shared by the collaboration handlers: status code,
the body's `error` field (`none` on success) and the body fields the claims
observe. -/
structure InviteResult where
  statusCode : Nat
  error : Option String
  invite_token : Option String
deriving DecidableEq, Repr

/-- `handle_invite_collaborator` (lines 1231-1431).  `bodyEmail`, `role0` and
the generated invite token are explicit inputs; email sending is an external
side effect with no bearing on the store.  All authentication failures
(missing/badly shaped header, unknown session, unknown user, lines 1238-1271)
return 401 with the store unchanged, collapsed here through
`resolveSessionUser`. -/
def handle_invite_collaborator (sessions : List Session) (users : List User)
    (store : List Trip) (auth : Option String) (trip_id : String)
    (bodyEmail role0 : String) (now : Nat) (inviteTok : String) :
    InviteResult × List Trip :=
  match resolveSessionUser sessions users auth with
  | none => (⟨401, some "Unauthorized", none⟩, store)
  | some (user_id, current_user) =>
    if trip_id = "" then (⟨400, some "Invalid path", none⟩, store)
    else
      let email := pyToLower (pyTrim bodyEmail)
      let role := pyToLower role0
      if ¬ (email ≠ "" && is_valid_email email) then
        (⟨400, some "Invalid email", none⟩, store)
      else if ¬ is_valid_role role then
        (⟨400, some "Invalid role", none⟩, store)
      else
        match store.find? (fun t => t.id == trip_id) with
        | none => (⟨404, some "Trip not found", none⟩, store)
        | some trip =>
          if ¬ can_user_access_trip trip user_id "invite_others" then
            (⟨403, some "Forbidden", none⟩, store)
          else if trip.collaborators.any (fun c => c.email == email) then
            (⟨400, some "Already invited", none⟩, store)
          else if trip.user_id == user_id && email == current_user.email then
            (⟨400, some "Cannot invite self", none⟩, store)
          else
            let invited_user := users.find? (fun u => u.email == email)
            let newC : Collaborator :=
              { user_id := match invited_user with
                           | some u => u.id
                           | none => ""
                email := email
                name := match invited_user with
                        | some u => u.name
                        | none => (pySplitOnChar '@' email).headD ""
                role := role
                invited_by := user_id
                invited_at := now
                status := "pending"
                invite_token := inviteTok
                permissions := get_role_permissions role }
            let store' := updateTripIn store trip.id
              (inviteTripUpdate trip newC now)
            (⟨200, none, some inviteTok⟩, store')

/-- Result record of `handle_respond_to_invite`. -/
structure RespondResult where
  statusCode : Nat
  error : Option String
  trip_id : Option String
  action : Option String
deriving DecidableEq, Repr

/-- The in-place mutation of the matched collaborator entry in
`handle_respond_to_invite` (lines 1519-1549): append a response record, set
`last_response`/`last_responded_at`, and on `accept` flip the status to
`accepted`; a decline leaves the status untouched so the token stays usable. -/
def respondCollabUpdate (action : String) (now : Nat) (ua ip : String)
    (c : Collaborator) : Collaborator :=
  let c1 := { c with
    responses := c.responses ++ [⟨action, now, ua, ip⟩]
    last_response := some (action ++ "ed")
    last_responded_at := some now }
  if action = "accept" then { c1 with status := "accepted", accepted_at := some now }
  else c1

/-- The per-trip rewrite of `handle_respond_to_invite`'s update (lines
1536-1559): the matched collaborator entry rewritten in place. -/
def respondTripUpdate (action : String) (now : Nat) (ua ip tok : String)
    (t : Trip) (tr : Trip) : Trip :=
  { tr with
    collaborators := updateFirst (fun c => c.invite_token == tok)
      (respondCollabUpdate action now ua ip) t.collaborators
    updated_at := now }

/-- `handle_respond_to_invite` (lines 1433-1580).  The Authorization header is
looked up in the sessions table to set `current_user_id` (lines 1460-1473),
which the rest of the function never reads — kept here, unused, to mirror the
code.  A non-`pending` status is logged but not rejected (lines 1512-1517):
the invite token is deliberately reusable. -/
def handle_respond_to_invite (sessions : List Session) (store : List Trip)
    (auth : Option String) (userAgent sourceIp : String)
    (action invite_token : String) (now : Nat) : RespondResult × List Trip :=
  if ¬ (action = "accept" ∨ action = "decline") then
    (⟨400, some "Invalid action", none, none⟩, store)
  else if invite_token = "" then
    (⟨400, some "Missing invite token", none, none⟩, store)
  else
    let _current_user_id : Option String :=
      match auth with
      | some a =>
        if pyStartsWith "Bearer " a then
          (sessions.find? (fun s => s.id == sessionTokenOf a)).map (·.user_id)
        else none
      | none => none
    match findInviteCollab store invite_token with
    | none => (⟨404, some "Invalid invite", none, none⟩, store)
    | some (t, _c) =>
      let store' := updateTripIn store t.id
        (respondTripUpdate action now userAgent sourceIp invite_token t)
      (⟨200, none, some t.id, some action⟩, store')

/-- Result record of `handle_accept_invitation`. -/
structure AcceptResult where
  statusCode : Nat
  error : Option String
  trip_id : Option String
  role : Option String
deriving DecidableEq, Repr

/-- The collaborator entry appended by an invitation accept
(`handle_accept_invitation` lines 2497-2508; `handle_register_with_invite`
lines 2314-2325 builds the same entry for the fresh account). -/
def acceptedCollaborator (uid email name : String) (inv : Invitation)
    (tok : String) (now : Nat) : Collaborator :=
  { user_id := uid
    email := email
    name := name
    role := inv.role
    invited_by := inv.inviter_id
    invited_at := inv.created_at
    status := "accepted"
    accepted_at := some now
    invite_token := tok
    permissions := get_role_permissions inv.role }

/-- Marking the matched invitation consumed (lines 2330-2336 / 2512-2519). -/
def consumeInvitation (now : Nat) (uid : String) (i : Invitation) : Invitation :=
  { i with status := "accepted", used_at := some now, used_by := some uid }

/-- The per-trip rewrite shared by the success paths of
`handle_accept_invitation` (lines 2510-2531) and
`handle_register_with_invite` (lines 2311-2348): append the accepted
collaborator and consume the matched invitation. -/
def acceptTripUpdate (uid email name tok : String) (inv : Invitation)
    (now : Nat) (t : Trip) (tr : Trip) : Trip :=
  { tr with
    collaborators := t.collaborators ++
      [acceptedCollaborator uid email name inv tok now]
    invitations := updateFirst (fun i => i.token == tok)
      (consumeInvitation now uid) t.invitations
    updated_at := now }

/-- `handle_accept_invitation` (lines 2380-2552): accept of an invite-link
invitation by an existing authenticated user.  Order of the gates follows the
code: auth, missing token, lookup, expiry, non-pending status, duplicate
collaborator; then append the accepted collaborator and consume the
invitation in one trip update. -/
def handle_accept_invitation (sessions : List Session) (users : List User)
    (store : List Trip) (auth : Option String) (invite_token : String)
    (now : Nat) : AcceptResult × List Trip :=
  match resolveSessionUser sessions users auth with
  | none => (⟨401, some "Unauthorized", none, none⟩, store)
  | some (user_id, current_user) =>
    if invite_token = "" then
      (⟨400, some "Missing invitation token", none, none⟩, store)
    else
      match findInvitation store invite_token with
      | none => (⟨404, some "Invalid invitation", none, none⟩, store)
      | some (t, inv) =>
        if inv.expires_at < now then
          (⟨400, some "Invitation expired", none, none⟩, store)
        else if inv.status ≠ "pending" then
          (⟨400, some "Invitation already used", none, none⟩, store)
        else if t.collaborators.any
            (fun c => c.user_id == user_id || c.email == current_user.email) then
          (⟨400, some "Already a collaborator", none, none⟩, store)
        else
          let store' := updateTripIn store t.id
            (acceptTripUpdate user_id current_user.email current_user.name
              invite_token inv now t)
          (⟨200, none, some t.id, some inv.role⟩, store')

/-- The three tables `handle_register_with_invite` touches. -/
structure BackendState where
  users : List User
  sessions : List Session
  trips : List Trip
deriving DecidableEq, Repr

/-- Result record of `handle_register_with_invite`. -/
structure RegisterResult where
  statusCode : Nat
  error : Option String
  userId : Option String
  token : Option String
  trip_id : Option String
deriving DecidableEq, Repr

/-- `handle_register_with_invite` (lines 2153-2378): validate the body, look
the invitation up, gate on `allow_signup` / expiry / `pending` status, reject
when the email already has an account, then create the user, the session, the
accepted collaborator entry, and consume the invitation.  The generated user
id and session token become explicit inputs; the store adapter is modelled as
reliable, so the write sequence of the success path is not interruptible. -/
def handle_register_with_invite (hash : String → String) (st : BackendState)
    (name0 email0 password invite_token : String) (now : Nat)
    (newUserId sessionToken : String) : RegisterResult × BackendState :=
  let name := pyTrim name0
  let email := pyToLower (pyTrim email0)
  if name = "" ∨ email = "" ∨ password = "" ∨ invite_token = "" then
    (⟨400, some "Missing required fields", none, none, none⟩, st)
  else if ¬ registerEmailOk email then
    (⟨400, some "Invalid email", none, none, none⟩, st)
  else
    match findInvitation st.trips invite_token with
    | none => (⟨404, some "Invalid invitation", none, none, none⟩, st)
    | some (t, inv) =>
      if ¬ inv.allow_signup then
        (⟨403, some "Signup not allowed", none, none, none⟩, st)
      else if inv.expires_at < now then
        (⟨400, some "Invitation expired", none, none, none⟩, st)
      else if inv.status ≠ "pending" then
        (⟨400, some "Invitation already used", none, none, none⟩, st)
      else if st.users.any (fun u => u.email == email) then
        (⟨400, some "User already exists", none, none, none⟩, st)
      else
        let newUser : User :=
          { id := newUserId, name := name, email := email,
            password_hash := hash password }
        let users' := putUser st.users newUser
        let sessions' := putSession st.sessions
          { id := sessionToken, user_id := newUserId,
            expires_at := now + 86400, created_at := now }
        let trips' := updateTripIn st.trips t.id
          (acceptTripUpdate newUserId email name invite_token inv now t)
        (⟨200, none, some newUserId, some sessionToken, some t.id⟩,
         ⟨users', sessions', trips'⟩)

/-- JSON values appearing in the filtered shared-trip view. -/
inductive JVal where
  | s (v : String)
  | n (v : Nat)
  | b (v : Bool)
  | arr (v : List String)
  | settings (v : ShareSettings)
deriving DecidableEq, Repr

/-- The filtered trip dict built on a successful share-link resolution
(lines 1833-1845), as the ordered key/value list the code constructs.
`share_settings` is the link's settings object as read before the access-count
update (which does not touch settings). -/
def sharedTripView (t : Trip) (settings : ShareSettings) : List (String × JVal) :=
  [("id", .s t.id),
   ("title", .s t.title),
   ("description", .s t.description),
   ("destination", .s t.destination),
   ("start_date", .s t.start_date),
   ("end_date", .s t.end_date),
   ("duration", .n t.duration),
   ("itinerary", .arr t.itinerary),
   ("wishlist", .arr t.wishlist),
   ("is_shared", .b true),
   ("share_settings", .settings settings)]

/-- Result record of `handle_get_shared_trip`: status code, `error` body
field, and the returned trip dict (present only on success). -/
structure SharedTripResult where
  statusCode : Nat
  error : Option String
  trip : Option (List (String × JVal))
deriving DecidableEq, Repr

/-- The access-count bump applied to the resolved share link on success
(lines 1813-1815). -/
def bumpAccess (now : Nat) (l : ShareLink) : ShareLink :=
  { l with access_count := l.access_count + 1, last_accessed := some now }

/-- The per-trip rewrite applied by the success path of
`handle_get_shared_trip` (lines 1817-1830): the resolved trip's share-link
list with the matched link bumped. -/
def bumpTripLinks (tok : String) (now : Nat) (t : Trip) (tr : Trip) : Trip :=
  { tr with share_links :=
      updateFirst (fun x => x.token == tok) (bumpAccess now) t.share_links }

/-- `handle_get_shared_trip` (lines 1743-1864): resolve a share token with no
authentication.  Gate order follows the code: token lookup (404), expiry
(410), then — only for password-protected links — missing password (401) and
hash mismatch (401); on success bump `access_count`/`last_accessed`, persist,
and return the filtered trip view.  `password` is
`query_params.get('password', '')`, so an absent parameter is `""`. -/
def handle_get_shared_trip (hash : String → String) (store : List Trip)
    (share_token : String) (password : String) (now : Nat) :
    SharedTripResult × List Trip :=
  if share_token = "" then (⟨400, some "Invalid path", none⟩, store)
  else
    match findShare store share_token with
    | none => (⟨404, some "Share link not found", none⟩, store)
    | some (t, l) =>
      if l.expires_at < now then (⟨410, some "Share link expired", none⟩, store)
      else
        let settings := l.settings
        if settings.password_protected ∧ password = "" then
          (⟨401, some "Password required", none⟩, store)
        else if settings.password_protected ∧ hash password ≠ settings.password then
          (⟨401, some "Invalid password", none⟩, store)
        else
          let store' := updateTripIn store t.id (bumpTripLinks share_token now t)
          (⟨200, none, some (sharedTripView t settings)⟩, store')

/-! ## Concrete fixtures used by witnesses and counterexamples -/

/-- A trip skeleton with empty embedded lists, owned by `u-alice`. -/
def baseTrip : Trip :=
  { id := "t1", user_id := "u-alice", title := "Rome", description := "spring trip",
    destination := "Rome", start_date := "2026-01-01", end_date := "2026-01-05",
    duration := 4, itinerary := ["Colosseum"], wishlist := ["Trevi"],
    collaborators := [], invitations := [], share_links := [], updated_at := 5 }

/-- A pending direct-invite collaborator entry for `bob@x.com` (no account
yet, so `user_id` is empty), carrying invite token `tk1` with role `editor`. -/
def cBobPending : Collaborator :=
  { user_id := "", email := "bob@x.com", name := "bob", role := "editor",
    invited_by := "u-alice", invited_at := 5, status := "pending",
    invite_token := "tk1", permissions := get_role_permissions "editor" }

/-- A pending collaborator entry for user `u-mallory` with role `admin`. -/
def cMalloryPendingAdmin : Collaborator :=
  { user_id := "u-mallory", email := "mallory@x.com", name := "mallory",
    role := "admin", invited_by := "u-alice", invited_at := 5,
    status := "pending", invite_token := "tk2",
    permissions := get_role_permissions "admin" }

/-- A pending invite-link invitation with token `iv1`, role `editor`,
expiring at instant 100. -/
def invPending : Invitation :=
  { id := "inv-1", token := "iv1", trip_id := "t1", inviter_id := "u-alice",
    role := "editor", created_at := 5, expires_at := 100, status := "pending",
    allow_signup := true }

/-- A password-protected share link with token `sh1`; the stored value is the
hash of `secret` under the witness hash function `wHash`. -/
def slProtected : ShareLink :=
  { id := "sl-1", trip_id := "t1", token := "sh1", created_by := "u-alice",
    settings := { is_public := false, allow_comments := false,
                  password_protected := true, password := "secret#h" },
    access_count := 3, created_at := 1, updated_at := 1, expires_at := 100 }

/-- Stand-in for the external SHA-256 hex digest in witnesses. -/
def wHash : String → String := fun s => s ++ "#h"

/-- The expired variant of `slProtected`, and a trip carrying it. -/
def slExpired : ShareLink := { slProtected with expires_at := 7 }

def tripExpiredShare : Trip := { baseTrip with share_links := [slExpired] }

/-- A live trip carrying the protected link `slProtected`, with a collaborator
on board so the filtering in C9 is not vacuous. -/
def tripLiveShare : Trip :=
  { baseTrip with share_links := [slProtected],
                  collaborators := [cMalloryPendingAdmin] }

/-- A trip with `bob@x.com`'s pending direct invite attached. -/
def tripDirectInvite : Trip := { baseTrip with collaborators := [cBobPending] }

/-- A trip with the pending invite-link invitation `invPending` attached. -/
def tripInviteLink : Trip := { baseTrip with invitations := [invPending] }

/-- A trip carrying both `bob@x.com`'s pending direct-invite entry and the
open invite-link invitation `invPending`. -/
def tripDirectAndLink : Trip :=
  { baseTrip with collaborators := [cBobPending], invitations := [invPending] }

/-- Bob's account, and a sessions table holding his live session `s-bob`. -/
def bobUser : User :=
  { id := "u-bob", name := "Bob", email := "bob@x.com", password_hash := "pw#h" }

def bobSessions : List Session := [{ id := "s-bob", user_id := "u-bob",
                                     expires_at := 99, created_at := 1 }]

/-- The owner Alice's account and a sessions table with her session. -/
def aliceUser : User :=
  { id := "u-alice", name := "Alice", email := "alice@x.com",
    password_hash := "alice#h" }

def aliceSessions : List Session := [{ id := "s-al", user_id := "u-alice",
                                       expires_at := 99, created_at := 1 }]

theorem scanStore_some_f {α : Type} {f : Trip → Option α} {store : List Trip}
    {t : Trip} {a : α} (h : scanStore f store = some (t, a)) : f t = some a := by
  induction store with
  | nil => simp [scanStore] at h
  | cons hd rest ih =>
    simp only [scanStore] at h
    cases hf : f hd with
    | some a0 =>
      rw [hf] at h
      cases h
      exact hf
    | none =>
      rw [hf] at h
      exact ih h

theorem scanStore_mem {α : Type} {f : Trip → Option α} {store : List Trip}
    {t : Trip} {a : α} (h : scanStore f store = some (t, a)) : t ∈ store := by
  induction store with
  | nil => simp [scanStore] at h
  | cons hd rest ih =>
    simp only [scanStore] at h
    cases hf : f hd with
    | some a0 =>
      rw [hf] at h
      cases h
      simp
    | none =>
      rw [hf] at h
      exact List.mem_cons_of_mem hd (ih h)

/-- After `update_item` on the found trip's key, rescanning for the same token
finds the updated record: the trips scanned before the hit had no match, and
every trip sharing the key gets the same rewritten embedded list. -/
theorem scanStore_update {α : Type} {f : Trip → Option α} (g : Trip → Trip)
    {a' : α} {store : List Trip} {t : Trip} {a : α}
    (hfind : scanStore f store = some (t, a))
    (hg : ∀ tr, tr.id = t.id → f (g tr) = some a') :
    ∃ tr0, tr0.id = t.id ∧
      scanStore f (updateTripIn store t.id g) = some (g tr0, a') := by
  induction store with
  | nil => simp [scanStore] at hfind
  | cons hd rest ih =>
    simp only [scanStore] at hfind
    cases hf : f hd with
    | some a0 =>
      rw [hf] at hfind
      cases hfind
      refine ⟨t, rfl, ?_⟩
      simp [updateTripIn, scanStore, hg t rfl]
    | none =>
      rw [hf] at hfind
      obtain ⟨tr0, hid, hres⟩ := ih hfind
      by_cases hhd : hd.id = t.id
      · refine ⟨hd, hhd, ?_⟩
        simp [updateTripIn, scanStore, if_pos hhd, hg hd hhd]
      · refine ⟨tr0, hid, ?_⟩
        simpa [updateTripIn, scanStore, if_neg hhd, hf] using hres

theorem find?_updateFirst {α : Type} {p : α → Bool} {f : α → α} {xs : List α}
    {x : α} (hfind : xs.find? p = some x) (hp : p (f x) = true) :
    (updateFirst p f xs).find? p = some (f x) := by
  induction xs with
  | nil => simp at hfind
  | cons hd rest ih =>
    by_cases hphd : p hd
    · rw [List.find?_cons_of_pos _ hphd] at hfind
      cases hfind
      simp [updateFirst, hphd, List.find?_cons_of_pos _ hp]
    · rw [List.find?_cons_of_neg _ hphd] at hfind
      simp [updateFirst, hphd, List.find?_cons_of_neg _ hphd, ih hfind]

theorem updateFirst_preserves {α : Type} {p : α → Bool} {f : α → α}
    {xs : List α} {P : α → Prop}
    (hall : ∀ x ∈ xs, P x) (hf : ∀ x ∈ xs, P (f x)) :
    ∀ y ∈ updateFirst p f xs, P y := by
  induction xs with
  | nil => simp [updateFirst]
  | cons hd rest ih =>
    intro y hy
    simp only [updateFirst] at hy
    by_cases hphd : p hd
    · rw [if_pos hphd, List.mem_cons] at hy
      rcases hy with hy | hy
      · exact hy ▸ hf hd (by simp)
      · exact hall y (by simp [hy])
    · rw [if_neg hphd, List.mem_cons] at hy
      rcases hy with hy | hy
      · exact hy ▸ hall hd (by simp)
      · exact ih (fun x hx => hall x (by simp [hx]))
          (fun x hx => hf x (by simp [hx])) y hy

/-! ## Claims -/

/-- Claim C4: for every trip and every capability string,
`can_user_access_trip` grants the owner — the owner check short-circuits
before the role table or the collaborators list is consulted, so the result
is `true` whatever they contain and whatever the capability is. -/
theorem C4_owner_always_granted (trip : Trip) (cap : String) :
    can_user_access_trip trip trip.user_id cap = true := by
  simp [can_user_access_trip]

/-- Claim C4 witness. -/
theorem C4_owner_always_granted_witness :
    can_user_access_trip baseTrip "u-alice" "manage_settings" = true :=
  C4_owner_always_granted baseTrip "manage_settings"

/-- Claim C5: a non-owner whose matching collaborator entries all carry
status `pending` or `declined` gets no capability at all (whatever role those
entries assign), and with an empty collaborators list every non-owner is
denied. -/
theorem C5_pending_declined_denied :
    (∀ (trip : Trip) (uid cap : String),
        trip.user_id ≠ uid →
        (∀ c ∈ trip.collaborators, c.user_id = uid →
            c.status = "pending" ∨ c.status = "declined") →
        can_user_access_trip trip uid cap = false) ∧
    (∀ (trip : Trip) (uid cap : String),
        trip.user_id ≠ uid → trip.collaborators = [] →
        can_user_access_trip trip uid cap = false) := by
  constructor
  · intro trip uid cap howner hall
    unfold can_user_access_trip
    rw [if_neg (by simpa using howner)]
    have hnone : trip.collaborators.find?
        (fun c => c.user_id == uid && c.status == "accepted") = none := by
      rw [List.find?_eq_none]
      intro c hc
      simp only [Bool.and_eq_true, beq_iff_eq, not_and]
      intro h1 h2
      rcases hall c hc h1 with h | h <;> rw [h] at h2 <;> exact absurd h2 (by decide)
    rw [hnone]
  · intro trip uid cap howner hemp
    unfold can_user_access_trip
    rw [if_neg (by simpa using howner), hemp]
    rfl

/-- Claim C5 witness: a pending `admin` collaborator is denied
`manage_settings`, and on a trip with no collaborators a stranger is denied
`view_trip`. -/
theorem C5_pending_declined_denied_witness :
    can_user_access_trip
      { baseTrip with collaborators := [cMalloryPendingAdmin] }
      "u-mallory" "manage_settings" = false ∧
    can_user_access_trip baseTrip "u-mallory" "view_trip" = false :=
  ⟨C5_pending_declined_denied.1 _ "u-mallory" "manage_settings"
      (by decide) (by decide),
   C5_pending_declined_denied.2 baseTrip "u-mallory" "view_trip"
      (by decide) rfl⟩

/-- Claim C6: the role table is total — `viewer` gets `view_trip` only,
`editor` adds `edit_itinerary`, `admin` gets all four capabilities, and any
other input string yields exactly `viewer`'s capability set. -/
theorem C6_role_table_total :
    get_role_permissions "viewer" = ⟨true, false, false, false⟩ ∧
    get_role_permissions "editor" = ⟨true, true, false, false⟩ ∧
    get_role_permissions "admin" = ⟨true, true, true, true⟩ ∧
    ∀ r : String, r ≠ "viewer" → r ≠ "editor" → r ≠ "admin" →
      get_role_permissions r = get_role_permissions "viewer" := by
  refine ⟨rfl, rfl, rfl, ?_⟩
  intro r h1 h2 h3
  simp [get_role_permissions, h1, h2, h3]

/-- Claim C6 witness: an unknown role string falls back to `viewer`'s set. -/
theorem C6_role_table_total_witness :
    get_role_permissions "superuser" = get_role_permissions "viewer" :=
  C6_role_table_total.2.2.2 "superuser" (by decide) (by decide) (by decide)

/-- Claim C7: once a share link's `expires_at` has passed, resolution returns
410/expired with no trip data and an unchanged store, for every supplied
password — the expiry gate sits before the password gate. -/
theorem C7_expired_share_is_gone (hash : String → String) (store : List Trip)
    (tok password : String) (now : Nat) (t : Trip) (l : ShareLink)
    (htok : tok ≠ "")
    (hfind : findShare store tok = some (t, l))
    (hexp : l.expires_at < now) :
    handle_get_shared_trip hash store tok password now =
      (⟨410, some "Share link expired", none⟩, store) := by
  simp [handle_get_shared_trip, htok, hfind, hexp]

/-- Claim C7 witness: an expired protected link answers 410 even to the
correct password. -/
theorem C7_expired_share_is_gone_witness :
    handle_get_shared_trip wHash [tripExpiredShare] "sh1" "secret" 10 =
      (⟨410, some "Share link expired", none⟩, [tripExpiredShare]) :=
  C7_expired_share_is_gone wHash [tripExpiredShare] "sh1" "secret" 10
    tripExpiredShare slExpired (by decide) (by decide) (by decide)

/-- Claim C8: on a live password-protected link, a correct password yields
200 and bumps the resolved link's `access_count` by exactly one (setting
`last_accessed`, touching nothing else in the record); a missing or wrong
password yields 401 and leaves the store untouched. -/
theorem C8_password_gate_access_count (hash : String → String)
    (store : List Trip) (tok : String) (now : Nat) (t : Trip) (l : ShareLink)
    (htok : tok ≠ "")
    (hfind : findShare store tok = some (t, l))
    (hexp : ¬ l.expires_at < now)
    (hprot : l.settings.password_protected = true) :
    (∀ password, password ≠ "" → hash password = l.settings.password →
      (handle_get_shared_trip hash store tok password now).1.statusCode = 200 ∧
      ∃ t', t'.id = t.id ∧
        findShare (handle_get_shared_trip hash store tok password now).2 tok =
          some (t', bumpAccess now l) ∧
        (bumpAccess now l).access_count = l.access_count + 1 ∧
        (bumpAccess now l).last_accessed = some now ∧
        (bumpAccess now l).settings = l.settings ∧
        (bumpAccess now l).token = l.token ∧
        (bumpAccess now l).expires_at = l.expires_at) ∧
    (∀ password, password = "" ∨ hash password ≠ l.settings.password →
      (handle_get_shared_trip hash store tok password now).1.statusCode = 401 ∧
      (handle_get_shared_trip hash store tok password now).2 = store) := by
  have hfind' : scanStore
      (fun tr => tr.share_links.find? (fun x => x.token == tok)) store
      = some (t, l) := hfind
  have hft : t.share_links.find? (fun x => x.token == tok) = some l :=
    scanStore_some_f hfind'
  have hpl := List.find?_some hft
  constructor
  · intro password hpw hmatch
    have hnot1 : ¬ (l.settings.password_protected ∧ password = "") := by
      intro h; exact hpw h.2
    have hnot2 : ¬ (l.settings.password_protected ∧
        hash password ≠ l.settings.password) := by
      intro h; exact h.2 hmatch
    have hsucc : handle_get_shared_trip hash store tok password now =
        (⟨200, none, some (sharedTripView t l.settings)⟩,
         updateTripIn store t.id (bumpTripLinks tok now t)) := by
      simp [handle_get_shared_trip, htok, hfind, hexp, hnot1, hnot2]
    refine ⟨by rw [hsucc], ?_⟩
    have hupd : (updateFirst (fun x => x.token == tok) (bumpAccess now)
        t.share_links).find? (fun x => x.token == tok)
        = some (bumpAccess now l) :=
      find?_updateFirst hft (by simpa [bumpAccess] using hpl)
    obtain ⟨tr0, hid, hscan⟩ := scanStore_update (bumpTripLinks tok now t)
      hfind' (fun tr _ => by simpa [bumpTripLinks] using hupd)
    refine ⟨bumpTripLinks tok now t tr0, by simp [bumpTripLinks, hid], ?_,
      rfl, rfl, rfl, rfl, rfl⟩
    rw [hsucc]
    exact hscan
  · intro password hbad
    rcases hbad with hbad | hbad
    · have : handle_get_shared_trip hash store tok password now =
          (⟨401, some "Password required", none⟩, store) := by
        simp [handle_get_shared_trip, htok, hfind, hexp, hprot, hbad]
      rw [this]
      exact ⟨rfl, rfl⟩
    · by_cases hempty : password = ""
      · have : handle_get_shared_trip hash store tok password now =
            (⟨401, some "Password required", none⟩, store) := by
          simp [handle_get_shared_trip, htok, hfind, hexp, hprot, hempty]
        rw [this]
        exact ⟨rfl, rfl⟩
      · have : handle_get_shared_trip hash store tok password now =
            (⟨401, some "Invalid password", none⟩, store) := by
          simp [handle_get_shared_trip, htok, hfind, hexp, hprot, hempty, hbad]
        rw [this]
        exact ⟨rfl, rfl⟩

/-- Claim C8 witness: on `tripLiveShare`, resolving `sh1` with the correct
password returns 200 and the rescanned link shows `access_count` bumped from
3 to 4 with `last_accessed` set; resolving with no password returns 401 and
the store is untouched. -/
theorem C8_password_gate_access_count_witness :
    ((handle_get_shared_trip wHash [tripLiveShare] "sh1" "secret" 10).1.statusCode
        = 200 ∧
      ∃ t', t'.id = tripLiveShare.id ∧
        findShare (handle_get_shared_trip wHash [tripLiveShare] "sh1" "secret" 10).2
            "sh1" = some (t', bumpAccess 10 slProtected) ∧
        (bumpAccess 10 slProtected).access_count = slProtected.access_count + 1 ∧
        (bumpAccess 10 slProtected).last_accessed = some 10 ∧
        (bumpAccess 10 slProtected).settings = slProtected.settings ∧
        (bumpAccess 10 slProtected).token = slProtected.token ∧
        (bumpAccess 10 slProtected).expires_at = slProtected.expires_at) ∧
    ((handle_get_shared_trip wHash [tripLiveShare] "sh1" "" 10).1.statusCode
        = 401 ∧
      (handle_get_shared_trip wHash [tripLiveShare] "sh1" "" 10).2
        = [tripLiveShare]) := by
  have H := C8_password_gate_access_count wHash [tripLiveShare] "sh1" 10
    tripLiveShare slProtected (by decide) (by decide) (by decide) (by decide)
  exact ⟨H.1 "secret" (by decide) (by decide), H.2 "" (Or.inl rfl)⟩

/-- Claim C9: every successful share-link resolution returns a trip dict with
exactly the eleven whitelisted keys; `collaborators`, the owner's `user_id`,
and `share_links` are never among them. -/
theorem C9_shared_view_filtered (hash : String → String) (store : List Trip)
    (tok password : String) (now : Nat)
    (h200 : (handle_get_shared_trip hash store tok password now).1.statusCode
      = 200) :
    ∃ d, (handle_get_shared_trip hash store tok password now).1.trip = some d ∧
      d.map Prod.fst = ["id", "title", "description", "destination",
        "start_date", "end_date", "duration", "itinerary", "wishlist",
        "is_shared", "share_settings"] ∧
      "collaborators" ∉ d.map Prod.fst ∧
      "user_id" ∉ d.map Prod.fst ∧
      "share_links" ∉ d.map Prod.fst := by
  by_cases h1 : tok = ""
  · exfalso
    simp [handle_get_shared_trip, h1] at h200
  · cases hfind : findShare store tok with
    | none =>
      exfalso
      simp [handle_get_shared_trip, h1, hfind] at h200
    | some p =>
      obtain ⟨t, l⟩ := p
      by_cases hexp : l.expires_at < now
      · exfalso
        simp [handle_get_shared_trip, h1, hfind, hexp] at h200
      · by_cases hpp : l.settings.password_protected ∧ password = ""
        · exfalso
          simp [handle_get_shared_trip, h1, hfind, hexp, hpp] at h200
        · by_cases hpw : l.settings.password_protected ∧
              hash password ≠ l.settings.password
          · exfalso
            simp [handle_get_shared_trip, h1, hfind, hexp, hpp, hpw] at h200
            by_cases hemp : password = "" <;> simp [hemp] at h200
          · have hkeys : (sharedTripView t l.settings).map Prod.fst =
                ["id", "title", "description", "destination", "start_date",
                 "end_date", "duration", "itinerary", "wishlist", "is_shared",
                 "share_settings"] := rfl
            refine ⟨sharedTripView t l.settings, ?_, hkeys,
              by rw [hkeys]; decide, by rw [hkeys]; decide,
              by rw [hkeys]; decide⟩
            simp [handle_get_shared_trip, h1, hfind, hexp, hpp, hpw]

theorem nodup_emails_append {l : List Collaborator} {c : Collaborator}
    (h : (l.map (fun x => x.email)).Nodup)
    (hne : ∀ x ∈ l, x.email ≠ c.email) :
    ((l ++ [c]).map (fun x => x.email)).Nodup := by
  rw [List.map_append, List.nodup_append]
  refine ⟨h, by simp, ?_⟩
  intro a ha hb
  simp only [List.map_cons, List.map_nil, List.mem_singleton] at hb
  obtain ⟨x, hx, rfl⟩ := List.mem_map.mp ha
  exact hne x hx hb

theorem putUser_mem (users : List User) (u : User) : u ∈ putUser users u := by
  unfold putUser
  by_cases h : users.any (fun x => x.id == u.id)
  · rw [if_pos h]
    obtain ⟨x, hx, hxid⟩ := List.any_eq_true.mp h
    rw [beq_iff_eq] at hxid
    exact List.mem_map.mpr ⟨x, hx, by rw [if_pos hxid]⟩
  · rw [if_neg h]
    simp

theorem putSession_mem (sessions : List Session) (s : Session) :
    s ∈ putSession sessions s := by
  unfold putSession
  by_cases h : sessions.any (fun x => x.id == s.id)
  · rw [if_pos h]
    obtain ⟨x, hx, hxid⟩ := List.any_eq_true.mp h
    rw [beq_iff_eq] at hxid
    exact List.mem_map.mpr ⟨x, hx, by rw [if_pos hxid]⟩
  · rw [if_neg h]
    simp

/-- Claim C1 counterexample: in the direct-invite respond flow
(`handle_respond_to_invite`, one of the two code paths the claim covers), a
second accept of the already-accepted token `tk1` does NOT return
`AlreadyUsed`: it succeeds again with 200 and no error, the resolve step
having let the non-`pending` entry through (lines 1512-1517). -/
theorem C1_single_use_counterexample :
    (handle_respond_to_invite [] [tripDirectInvite] none "UA" "1.2.3.4"
        "accept" "tk1" 10).1.statusCode = 200 ∧
    ((findInviteCollab
        (handle_respond_to_invite [] [tripDirectInvite] none "UA" "1.2.3.4"
          "accept" "tk1" 10).2 "tk1").map (fun p => p.2.status)
      = some "accepted") ∧
    (handle_respond_to_invite []
        (handle_respond_to_invite [] [tripDirectInvite] none "UA" "1.2.3.4"
          "accept" "tk1" 10).2
        none "UA" "1.2.3.4" "accept" "tk1" 20).1.statusCode = 200 ∧
    (handle_respond_to_invite []
        (handle_respond_to_invite [] [tripDirectInvite] none "UA" "1.2.3.4"
          "accept" "tk1" 10).2
        none "UA" "1.2.3.4" "accept" "tk1" 20).1.error = none := by
  decide

/-- Claim C1 as amended: single-use holds for the invite-link invitation flow
(`handle_accept_invitation`).  A first accept by an authenticated non-
collaborator succeeds (200), marks the invitation consumed, and leaves the
trip with exactly one collaborator entry for that invitee; any later accept
of the same token (by any authenticated caller, within the expiry window)
returns 400 `Invitation already used` and changes nothing. -/
theorem C1_invite_link_single_use (sessions : List Session) (users : List User)
    (store : List Trip) (auth : Option String) (tok : String) (now : Nat)
    (uid : String) (user : User) (t : Trip) (inv : Invitation)
    (hres : resolveSessionUser sessions users auth = some (uid, user))
    (htok : tok ≠ "")
    (hfind : findInvitation store tok = some (t, inv))
    (hexp : ¬ inv.expires_at < now)
    (hpend : inv.status = "pending")
    (hnocol : ∀ c ∈ t.collaborators, ¬ (c.user_id = uid ∨ c.email = user.email)) :
    (handle_accept_invitation sessions users store auth tok now).1.statusCode
      = 200 ∧
    (∃ t', t'.id = t.id ∧
      findInvitation
          (handle_accept_invitation sessions users store auth tok now).2 tok
        = some (t', consumeInvitation now uid inv) ∧
      (consumeInvitation now uid inv).status = "accepted" ∧
      t'.collaborators.countP (fun c => c.user_id == uid) = 1) ∧
    (∀ (sessions2 : List Session) (users2 : List User) (auth2 : Option String)
        (uid2 : String) (user2 : User) (now2 : Nat),
      resolveSessionUser sessions2 users2 auth2 = some (uid2, user2) →
      ¬ inv.expires_at < now2 →
      handle_accept_invitation sessions2 users2
          (handle_accept_invitation sessions users store auth tok now).2
          auth2 tok now2
        = (⟨400, some "Invitation already used", none, none⟩,
           (handle_accept_invitation sessions users store auth tok now).2)) := by
  have hfind' : scanStore
      (fun tr => tr.invitations.find? (fun i => i.token == tok)) store
      = some (t, inv) := hfind
  have hfi : t.invitations.find? (fun i => i.token == tok) = some inv :=
    scanStore_some_f hfind'
  have hit := List.find?_some hfi
  have hany : t.collaborators.any
      (fun c => c.user_id == uid || c.email == user.email) = false := by
    rw [List.any_eq_false]
    intro c hc
    have := hnocol c hc
    simp only [Bool.or_eq_true, beq_iff_eq]
    tauto
  have hsucc : handle_accept_invitation sessions users store auth tok now =
      (⟨200, none, some t.id, some inv.role⟩,
       updateTripIn store t.id
         (acceptTripUpdate uid user.email user.name tok inv now t)) := by
    simp [handle_accept_invitation, hres, htok, hfind, hexp, hpend, hany]
  have hupd : (updateFirst (fun i => i.token == tok)
      (consumeInvitation now uid) t.invitations).find?
        (fun i => i.token == tok) = some (consumeInvitation now uid inv) :=
    find?_updateFirst hfi (by simpa [consumeInvitation] using hit)
  obtain ⟨tr0, hid, hscan⟩ := scanStore_update
    (acceptTripUpdate uid user.email user.name tok inv now t) hfind'
    (fun tr _ => by simpa [acceptTripUpdate] using hupd)
  have hcount : (acceptTripUpdate uid user.email user.name tok inv now t
      tr0).collaborators.countP (fun c => c.user_id == uid) = 1 := by
    have h0 : t.collaborators.countP (fun c => c.user_id == uid) = 0 := by
      rw [List.countP_eq_zero]
      intro c hc
      have := hnocol c hc
      simp only [beq_iff_eq]
      tauto
    simp [acceptTripUpdate, List.countP_append, h0, acceptedCollaborator,
      List.countP_cons]
  refine ⟨by rw [hsucc], ?_, ?_⟩
  · exact ⟨acceptTripUpdate uid user.email user.name tok inv now t tr0,
      by simp [acceptTripUpdate, hid], by rw [hsucc]; exact hscan,
      rfl, hcount⟩
  · intro sessions2 users2 auth2 uid2 user2 now2 hres2 hexp2
    rw [hsucc]
    have hexp2' : ¬ (consumeInvitation now uid inv).expires_at < now2 := by
      simpa [consumeInvitation] using hexp2
    have hused : (consumeInvitation now uid inv).status ≠ "pending" := by
      simp [consumeInvitation]
    have hscanF : findInvitation
        (updateTripIn store t.id
          (acceptTripUpdate uid user.email user.name tok inv now t)) tok
        = some (acceptTripUpdate uid user.email user.name tok inv now t tr0,
            consumeInvitation now uid inv) := hscan
    simp [handle_accept_invitation, hres2, htok, hscanF, hexp2', hused]

/-- Claim C1 amended-theorem witness: Bob accepts the pending invitation
`iv1`; the re-accept at time 20 is rejected as already used. -/
theorem C1_invite_link_single_use_witness :
    (handle_accept_invitation bobSessions [bobUser] [tripInviteLink]
        (some "Bearer s-bob") "iv1" 10).1.statusCode = 200 ∧
    (∃ t', t'.id = tripInviteLink.id ∧
      findInvitation
          (handle_accept_invitation bobSessions [bobUser] [tripInviteLink]
            (some "Bearer s-bob") "iv1" 10).2 "iv1"
        = some (t', consumeInvitation 10 "u-bob" invPending) ∧
      (consumeInvitation 10 "u-bob" invPending).status = "accepted" ∧
      t'.collaborators.countP (fun c => c.user_id == "u-bob") = 1) ∧
    ∀ (sessions2 : List Session) (users2 : List User) (auth2 : Option String)
        (uid2 : String) (user2 : User) (now2 : Nat),
      resolveSessionUser sessions2 users2 auth2 = some (uid2, user2) →
      ¬ invPending.expires_at < now2 →
      handle_accept_invitation sessions2 users2
          (handle_accept_invitation bobSessions [bobUser] [tripInviteLink]
            (some "Bearer s-bob") "iv1" 10).2
          auth2 "iv1" now2
        = (⟨400, some "Invitation already used", none, none⟩,
           (handle_accept_invitation bobSessions [bobUser] [tripInviteLink]
             (some "Bearer s-bob") "iv1" 10).2) :=
  C1_invite_link_single_use bobSessions [bobUser] [tripInviteLink]
    (some "Bearer s-bob") "iv1" 10 "u-bob" bobUser tripInviteLink invPending
    (by decide) (by decide) (by decide) (by decide) (by decide) (by decide)

/-- Claim C2 counterexample: `handle_register_with_invite` never consults the
trip's collaborator list.  With `bob@x.com` already present as a pending
direct-invite collaborator but no account under that email, registering
through the open invite link succeeds (200) and leaves the trip with TWO
collaborator entries for `bob@x.com` — the handler did not reject, so the
per-email uniqueness invariant is not preserved by this operation. -/
theorem C2_uniqueness_counterexample :
    (handle_register_with_invite wHash ⟨[], [], [tripDirectAndLink]⟩
        "Bob" "bob@x.com" "pw" "iv1" 10 "u-new" "s-new").1.statusCode = 200 ∧
    ((handle_register_with_invite wHash ⟨[], [], [tripDirectAndLink]⟩
        "Bob" "bob@x.com" "pw" "iv1" 10 "u-new" "s-new").2.trips.map
      (fun t => t.collaborators.countP (fun c => c.email == "bob@x.com")))
      = [2] := by
  decide

/-- Claim C2 as amended: the direct-invite handler (duplicate email check,
lines 1334-1341) and the invite-link accept handler (duplicate user-id or
email check, lines 2478-2485) both preserve per-trip collaborator-email
uniqueness; `handle_register_with_invite`, however, only rejects emails that
already have an ACCOUNT and never inspects the collaborator list, so it can
append a second entry with an email already present among the trip's
collaborators (see the counterexample). -/
theorem C2_uniqueness_amended :
    (∀ (sessions : List Session) (users : List User) (store : List Trip)
        (auth : Option String) (trip_id bodyEmail role0 : String) (now : Nat)
        (inviteTok : String),
      (∀ tr ∈ store, emailsNodup tr) →
      ∀ tr ∈ (handle_invite_collaborator sessions users store auth trip_id
          bodyEmail role0 now inviteTok).2, emailsNodup tr) ∧
    (∀ (sessions : List Session) (users : List User) (store : List Trip)
        (auth : Option String) (tok : String) (now : Nat),
      (∀ tr ∈ store, emailsNodup tr) →
      ∀ tr ∈ (handle_accept_invitation sessions users store auth tok
          now).2, emailsNodup tr) := by
  constructor
  · intro sessions users store auth trip_id bodyEmail role0 now inviteTok
      hinv tr htr
    cases hres : resolveSessionUser sessions users auth with
    | none =>
      simp only [handle_invite_collaborator, hres] at htr
      exact hinv tr htr
    | some pr =>
      obtain ⟨uid, cu⟩ := pr
      by_cases hid : trip_id = ""
      · simp only [handle_invite_collaborator, hres, hid, if_true] at htr
        exact hinv tr htr
      · by_cases hv : (pyToLower (pyTrim bodyEmail) ≠ "" &&
            is_valid_email (pyToLower (pyTrim bodyEmail))) = true
        · by_cases hr : is_valid_role (pyToLower role0) = true
          · cases hft : store.find? (fun t => t.id == trip_id) with
            | none =>
              simp only [handle_invite_collaborator, hres, hid, hv, hr,
                hft, if_false, if_true, not_true, not_false_iff] at htr
              exact hinv tr htr
            | some trip =>
              by_cases hperm : can_user_access_trip trip uid "invite_others"
                  = true
              · by_cases hdup : trip.collaborators.any
                    (fun c => c.email == pyToLower (pyTrim bodyEmail)) = true
                · simp only [handle_invite_collaborator, hres, hid, hv, hr,
                    hft, hperm, hdup] at htr
                  simp at htr
                  exact hinv tr htr
                · by_cases hself : (trip.user_id == uid &&
                      pyToLower (pyTrim bodyEmail) == cu.email) = true
                  · simp only [handle_invite_collaborator, hres, hid, hv, hr,
                      hft, hperm, hdup, hself] at htr
                    simp [hself] at htr
                    exact hinv tr htr
                  · simp only [handle_invite_collaborator, hres, hid, hv, hr,
                      hft, hperm, hdup, hself] at htr
                    simp [hself] at htr
                    simp only [updateTripIn, List.mem_map] at htr
                    obtain ⟨src, hsrc, rfl⟩ := htr
                    by_cases hsid : src.id = trip.id
                    · rw [if_pos hsid]
                      unfold inviteTripUpdate emailsNodup
                      apply nodup_emails_append
                      · exact hinv trip (List.mem_of_find?_eq_some hft)
                      · intro x hx
                        have := List.any_eq_false.mp
                          (Bool.not_eq_true _ ▸ hdup) x hx
                        simpa using this
                    · rw [if_neg hsid]
                      exact hinv src hsrc
              · simp only [handle_invite_collaborator, hres, hid, hv, hr,
                  hft] at htr
                simp [hperm] at htr
                exact hinv tr htr
          · simp only [handle_invite_collaborator, hres, hid, hv, hr] at htr
            simp [hr] at htr
            exact hinv tr htr
        · simp only [handle_invite_collaborator, hres, hid, hv] at htr
          simp [hv] at htr
          exact hinv tr htr
  · intro sessions users store auth tok now hinv tr htr
    cases hres : resolveSessionUser sessions users auth with
    | none =>
      simp only [handle_accept_invitation, hres] at htr
      exact hinv tr htr
    | some pr =>
      obtain ⟨uid, cu⟩ := pr
      by_cases htok : tok = ""
      · simp only [handle_accept_invitation, hres, htok, if_true] at htr
        exact hinv tr htr
      · cases hfind : findInvitation store tok with
        | none =>
          simp only [handle_accept_invitation, hres, htok, hfind] at htr
          simp [htok] at htr
          exact hinv tr htr
        | some p =>
          obtain ⟨t, inv⟩ := p
          by_cases hexp : inv.expires_at < now
          · simp only [handle_accept_invitation, hres, htok, hfind,
              hexp] at htr
            simp [htok, hexp] at htr
            exact hinv tr htr
          · by_cases hpend : inv.status = "pending"
            · by_cases hdup : t.collaborators.any
                  (fun c => c.user_id == uid || c.email == cu.email) = true
              · simp only [handle_accept_invitation, hres, htok, hfind,
                  hexp, hpend, hdup] at htr
                simp [htok, hexp, hpend] at htr
                exact hinv tr htr
              · simp only [handle_accept_invitation, hres, htok, hfind,
                  hexp, hpend, hdup] at htr
                simp [htok, hexp, hpend, hdup] at htr
                simp only [updateTripIn, List.mem_map] at htr
                obtain ⟨src, hsrc, rfl⟩ := htr
                by_cases hsid : src.id = t.id
                · rw [if_pos hsid]
                  unfold acceptTripUpdate emailsNodup
                  apply nodup_emails_append
                  · exact hinv t (scanStore_mem hfind)
                  · intro x hx
                    have := List.any_eq_false.mp
                      (Bool.not_eq_true _ ▸ hdup) x hx
                    simp only [Bool.or_eq_true, beq_iff_eq, not_or] at this
                    simpa [acceptedCollaborator] using this.2
                · rw [if_neg hsid]
                  exact hinv src hsrc
            · simp only [handle_accept_invitation, hres, htok, hfind,
                hexp, hpend] at htr
              simp [htok, hexp, hpend] at htr
              exact hinv tr htr

/-- Claim C2 amended-theorem witness: Alice direct-invites `carol@x.com` on a
trip that already has Bob pending, and Bob accepts the invite link — per-trip
email uniqueness survives both. -/
theorem C2_uniqueness_amended_witness :
    (∀ tr ∈ (handle_invite_collaborator aliceSessions [aliceUser, bobUser]
        [tripDirectInvite] (some "Bearer s-al") "t1" "carol@x.com" "viewer"
        10 "tk9").2, emailsNodup tr) ∧
    (∀ tr ∈ (handle_accept_invitation bobSessions [bobUser] [tripInviteLink]
        (some "Bearer s-bob") "iv1" 10).2, emailsNodup tr) :=
  ⟨C2_uniqueness_amended.1 aliceSessions [aliceUser, bobUser]
      [tripDirectInvite] (some "Bearer s-al") "t1" "carol@x.com" "viewer"
      10 "tk9" (by decide),
   C2_uniqueness_amended.2 bobSessions [bobUser] [tripInviteLink]
      (some "Bearer s-bob") "iv1" 10 (by decide)⟩

/-- Claim C3: with a resolvable, signup-enabled, unexpired, pending
invitation and well-formed fields, `handle_register_with_invite` (a) fails
with Conflict (`User already exists`, 400) and leaves every table untouched
when the email already has an account, and (b) otherwise returns 200 with the
account, the session, the accepted collaborator entry, and the consumed
invitation all present in the resulting state — under the reliable-store
model, the caller observes either none of the effects or all of them. -/
theorem C3_register_conflict_or_all_effects (hash : String → String)
    (st : BackendState) (name0 email0 password tok : String) (now : Nat)
    (nid stok : String) (t : Trip) (inv : Invitation)
    (hfind : findInvitation st.trips tok = some (t, inv))
    (hsignup : inv.allow_signup = true)
    (hexp : ¬ inv.expires_at < now)
    (hpend : inv.status = "pending")
    (hname : pyTrim name0 ≠ "")
    (hemail0 : pyToLower (pyTrim email0) ≠ "")
    (hpw : password ≠ "")
    (htok : tok ≠ "")
    (hfmt : registerEmailOk (pyToLower (pyTrim email0)) = true) :
    ((∃ u ∈ st.users, u.email = pyToLower (pyTrim email0)) →
      handle_register_with_invite hash st name0 email0 password tok now
          nid stok
        = (⟨400, some "User already exists", none, none, none⟩, st)) ∧
    ((∀ u ∈ st.users, u.email ≠ pyToLower (pyTrim email0)) →
      (handle_register_with_invite hash st name0 email0 password tok now
          nid stok).1.statusCode = 200 ∧
      ({ id := nid, name := pyTrim name0, email := pyToLower (pyTrim email0),
         password_hash := hash password } : User) ∈
        (handle_register_with_invite hash st name0 email0 password tok now
          nid stok).2.users ∧
      ({ id := stok, user_id := nid, expires_at := now + 86400,
         created_at := now } : Session) ∈
        (handle_register_with_invite hash st name0 email0 password tok now
          nid stok).2.sessions ∧
      ∃ t', t'.id = t.id ∧
        findInvitation
            (handle_register_with_invite hash st name0 email0 password tok
              now nid stok).2.trips tok
          = some (t', consumeInvitation now nid inv) ∧
        (consumeInvitation now nid inv).status = "accepted" ∧
        (consumeInvitation now nid inv).used_by = some nid ∧
        ∃ c ∈ t'.collaborators, c.user_id = nid ∧ c.status = "accepted" ∧
          c.role = inv.role ∧ c.email = pyToLower (pyTrim email0)) := by
  have hcond : ¬ (pyTrim name0 = "" ∨ pyToLower (pyTrim email0) = "" ∨
      password = "" ∨ tok = "") := by
    push_neg
    exact ⟨hname, hemail0, hpw, htok⟩
  constructor
  · intro hex
    obtain ⟨u, hu, hue⟩ := hex
    have ha : st.users.any
        (fun u => u.email == pyToLower (pyTrim email0)) = true :=
      List.any_eq_true.mpr ⟨u, hu, by simpa using hue⟩
    simp [handle_register_with_invite, hcond, hfmt, hfind, hsignup, hexp,
      hpend, ha]
  · intro hno
    have ha : st.users.any
        (fun u => u.email == pyToLower (pyTrim email0)) = false := by
      rw [List.any_eq_false]
      intro u hu
      simpa using hno u hu
    have hsucc : handle_register_with_invite hash st name0 email0 password
        tok now nid stok =
        (⟨200, none, some nid, some stok, some t.id⟩,
         ⟨putUser st.users
            { id := nid, name := pyTrim name0,
              email := pyToLower (pyTrim email0),
              password_hash := hash password },
          putSession st.sessions
            { id := stok, user_id := nid, expires_at := now + 86400,
              created_at := now },
          updateTripIn st.trips t.id
            (acceptTripUpdate nid (pyToLower (pyTrim email0)) (pyTrim name0)
              tok inv now t)⟩) := by
      simp [handle_register_with_invite, hcond, hfmt, hfind, hsignup, hexp,
        hpend, ha]
    have hfind' : scanStore
        (fun tr => tr.invitations.find? (fun i => i.token == tok)) st.trips
        = some (t, inv) := hfind
    have hfi : t.invitations.find? (fun i => i.token == tok) = some inv :=
      scanStore_some_f hfind'
    have hupd : (updateFirst (fun i => i.token == tok)
        (consumeInvitation now nid) t.invitations).find?
          (fun i => i.token == tok) = some (consumeInvitation now nid inv) :=
      find?_updateFirst hfi
        (by simpa [consumeInvitation] using List.find?_some hfi)
    obtain ⟨tr0, hid, hscan⟩ := scanStore_update
      (acceptTripUpdate nid (pyToLower (pyTrim email0)) (pyTrim name0) tok
        inv now t) hfind'
      (fun tr _ => by simpa [acceptTripUpdate] using hupd)
    refine ⟨by rw [hsucc], by rw [hsucc]; exact putUser_mem _ _,
      by rw [hsucc]; exact putSession_mem _ _, ?_⟩
    refine ⟨acceptTripUpdate nid (pyToLower (pyTrim email0)) (pyTrim name0)
      tok inv now t tr0, by simp [acceptTripUpdate, hid],
      by rw [hsucc]; exact hscan, rfl, rfl, ?_⟩
    refine ⟨acceptedCollaborator nid (pyToLower (pyTrim email0))
      (pyTrim name0) inv tok now, ?_, rfl, rfl, rfl, rfl⟩
    simp [acceptTripUpdate]

/-- Claim C3 witness: against `tripInviteLink`, registering `bob@x.com`
(which has an account) is a conflict that changes nothing, and registering
`carol@x.com` (no account) produces the account, session, collaborator and
consumed invitation. -/
theorem C3_register_conflict_or_all_effects_witness :
    (handle_register_with_invite wHash ⟨[bobUser], [], [tripInviteLink]⟩
        "Bob" "bob@x.com" "pw" "iv1" 10 "u-new" "s-new"
      = (⟨400, some "User already exists", none, none, none⟩,
         ⟨[bobUser], [], [tripInviteLink]⟩)) ∧
    ((handle_register_with_invite wHash ⟨[bobUser], [], [tripInviteLink]⟩
        "Carol" "carol@x.com" "pw" "iv1" 10 "u-new" "s-new").1.statusCode
        = 200 ∧
      ({ id := "u-new", name := pyTrim "Carol",
         email := pyToLower (pyTrim "carol@x.com"),
         password_hash := wHash "pw" } : User) ∈
        (handle_register_with_invite wHash ⟨[bobUser], [], [tripInviteLink]⟩
          "Carol" "carol@x.com" "pw" "iv1" 10 "u-new" "s-new").2.users ∧
      ({ id := "s-new", user_id := "u-new", expires_at := 10 + 86400,
         created_at := 10 } : Session) ∈
        (handle_register_with_invite wHash ⟨[bobUser], [], [tripInviteLink]⟩
          "Carol" "carol@x.com" "pw" "iv1" 10 "u-new" "s-new").2.sessions ∧
      ∃ t', t'.id = tripInviteLink.id ∧
        findInvitation
            (handle_register_with_invite wHash
              ⟨[bobUser], [], [tripInviteLink]⟩
              "Carol" "carol@x.com" "pw" "iv1" 10 "u-new" "s-new").2.trips
            "iv1"
          = some (t', consumeInvitation 10 "u-new" invPending) ∧
        (consumeInvitation 10 "u-new" invPending).status = "accepted" ∧
        (consumeInvitation 10 "u-new" invPending).used_by = some "u-new" ∧
        ∃ c ∈ t'.collaborators, c.user_id = "u-new" ∧ c.status = "accepted" ∧
          c.role = invPending.role ∧
          c.email = pyToLower (pyTrim "carol@x.com")) :=
  ⟨(C3_register_conflict_or_all_effects wHash ⟨[bobUser], [], [tripInviteLink]⟩
      "Bob" "bob@x.com" "pw" "iv1" 10 "u-new" "s-new" tripInviteLink invPending
      (by decide) (by decide) (by decide) (by decide) (by decide) (by decide)
      (by decide) (by decide) (by decide)).1
      ⟨bobUser, by decide, by decide⟩,
   (C3_register_conflict_or_all_effects wHash ⟨[bobUser], [], [tripInviteLink]⟩
      "Carol" "carol@x.com" "pw" "iv1" 10 "u-new" "s-new" tripInviteLink
      invPending
      (by decide) (by decide) (by decide) (by decide) (by decide) (by decide)
      (by decide) (by decide) (by decide)).2
      (by decide)⟩

theorem respondCollabUpdate_invite_token (a : String) (n : Nat) (ua ip : String)
    (c : Collaborator) :
    (respondCollabUpdate a n ua ip c).invite_token = c.invite_token := by
  unfold respondCollabUpdate
  split <;> rfl

theorem respondCollabUpdate_user_id (a : String) (n : Nat) (ua ip : String)
    (c : Collaborator) :
    (respondCollabUpdate a n ua ip c).user_id = c.user_id := by
  unfold respondCollabUpdate
  split <;> rfl

/-- Claim C10: responding to a direct collaborator invite is independent of
the caller's identity — the session resolved from the Authorization header is
dead code, so any two requests differing only in sessions table and header
produce the same response and the same store; and the accept rewrites the
matched entry in place, keeping its `user_id` as fixed at invite time. -/
theorem C10_respond_ignores_identity :
    (∀ (sessions sessions' : List Session) (auth auth' : Option String)
        (store : List Trip) (ua ip action tok : String) (now : Nat),
      handle_respond_to_invite sessions store auth ua ip action tok now =
        handle_respond_to_invite sessions' store auth' ua ip action tok now) ∧
    (∀ (sessions : List Session) (store : List Trip) (auth : Option String)
        (ua ip tok : String) (now : Nat) (t : Trip) (c : Collaborator),
      tok ≠ "" →
      findInviteCollab store tok = some (t, c) →
      (handle_respond_to_invite sessions store auth ua ip "accept" tok
          now).1.statusCode = 200 ∧
      ∃ t', t'.id = t.id ∧
        findInviteCollab
            (handle_respond_to_invite sessions store auth ua ip "accept" tok
              now).2 tok
          = some (t', respondCollabUpdate "accept" now ua ip c) ∧
        (respondCollabUpdate "accept" now ua ip c).user_id = c.user_id ∧
        (respondCollabUpdate "accept" now ua ip c).status = "accepted") := by
  constructor
  · intro sessions sessions' auth auth' store ua ip action tok now
    rfl
  · intro sessions store auth ua ip tok now t c htok hfind
    have hfind' : scanStore
        (fun tr => tr.collaborators.find? (fun x => x.invite_token == tok))
        store = some (t, c) := hfind
    have hft : t.collaborators.find? (fun x => x.invite_token == tok)
        = some c := scanStore_some_f hfind'
    have hpc := List.find?_some hft
    have hsucc : handle_respond_to_invite sessions store auth ua ip "accept"
        tok now =
        (⟨200, none, some t.id, some "accept"⟩,
         updateTripIn store t.id (respondTripUpdate "accept" now ua ip tok t)) := by
      simp [handle_respond_to_invite, htok, hfind]
    refine ⟨by rw [hsucc], ?_⟩
    have hupd : (updateFirst (fun x => x.invite_token == tok)
        (respondCollabUpdate "accept" now ua ip) t.collaborators).find?
          (fun x => x.invite_token == tok)
        = some (respondCollabUpdate "accept" now ua ip c) :=
      find?_updateFirst hft
        (by simpa [respondCollabUpdate_invite_token] using hpc)
    obtain ⟨tr0, hid, hscan⟩ := scanStore_update
      (respondTripUpdate "accept" now ua ip tok t) hfind'
      (fun tr _ => by simpa [respondTripUpdate] using hupd)
    refine ⟨respondTripUpdate "accept" now ua ip tok t tr0,
      by simp [respondTripUpdate, hid], ?_,
      respondCollabUpdate_user_id "accept" now ua ip c,
      by simp [respondCollabUpdate]⟩
    rw [hsucc]
    exact hscan

/-- Claim C10 witness: with and without a valid session for an unrelated user
`u-eve`, accepting `tk1` unauthenticated gives identical results, and the
rewritten entry keeps `cBobPending`'s (empty) `user_id`. -/
theorem C10_respond_ignores_identity_witness :
    (handle_respond_to_invite [] [tripDirectInvite] none "UA" "9.9.9.9"
        "accept" "tk1" 10 =
      handle_respond_to_invite [⟨"s1", "u-eve", 99, 1⟩] [tripDirectInvite]
        (some "Bearer s1") "UA" "9.9.9.9" "accept" "tk1" 10) ∧
    ((handle_respond_to_invite [] [tripDirectInvite] none "UA" "9.9.9.9"
        "accept" "tk1" 10).1.statusCode = 200 ∧
      ∃ t', t'.id = tripDirectInvite.id ∧
        findInviteCollab
            (handle_respond_to_invite [] [tripDirectInvite] none "UA" "9.9.9.9"
              "accept" "tk1" 10).2 "tk1"
          = some (t', respondCollabUpdate "accept" 10 "UA" "9.9.9.9" cBobPending) ∧
        (respondCollabUpdate "accept" 10 "UA" "9.9.9.9" cBobPending).user_id
          = cBobPending.user_id ∧
        (respondCollabUpdate "accept" 10 "UA" "9.9.9.9" cBobPending).status
          = "accepted") :=
  ⟨C10_respond_ignores_identity.1 [] [⟨"s1", "u-eve", 99, 1⟩] none
      (some "Bearer s1") [tripDirectInvite] "UA" "9.9.9.9" "accept" "tk1" 10,
   C10_respond_ignores_identity.2 [] [tripDirectInvite] none "UA" "9.9.9.9"
      "tk1" 10 tripDirectInvite cBobPending (by decide) (by decide)⟩

/-- Claim C9 witness: the successful resolution of `sh1` on `tripLiveShare`
(which does carry a collaborator and a share link) returns only the
whitelisted keys. -/
theorem C9_shared_view_filtered_witness :
    ∃ d, (handle_get_shared_trip wHash [tripLiveShare] "sh1" "secret" 10).1.trip
        = some d ∧
      d.map Prod.fst = ["id", "title", "description", "destination",
        "start_date", "end_date", "duration", "itinerary", "wishlist",
        "is_shared", "share_settings"] ∧
      "collaborators" ∉ d.map Prod.fst ∧
      "user_id" ∉ d.map Prod.fst ∧
      "share_links" ∉ d.map Prod.fst :=
  C9_shared_view_filtered wHash [tripLiveShare] "sh1" "secret" 10 (by decide)

end TravelDiary
